import Mathlib

/-!
Verification of the acquisition core of the Analog Discovery 2 GUI
repository.  The embedding covers the two variants the specification is
drawn from: `ad2_gui.py` (the "basic" variant) and `complete_ad2_gui.py`
(the "complete" variant).

Modelling conventions:
* Calls into the vendor (dwf) shared library are recorded as a trace of
  `HWCall` events; the device itself is an oracle (`DevOracle`, or a bare
  status stream `Nat → Int`) that says what each status poll returns and
  which hardware calls raise an exception.
* Voltages, sample rates and timebases are modelled as rationals.  The
  timebase menu of the GUI only offers positive decimal values, for which
  Python `int()` truncation agrees with the floor used here.
* Python object state relevant to the claims is the `GuiState` record:
  whether the dwf library loaded (`self.dwf is not None`), the
  `is_connected` and `is_acquiring` flags, whether the status label reads
  Test Mode Active (`test_mode`), the device handle value, the combobox
  settings, the stored data lists and the button states.
* The background loops read the `is_acquiring` flag that the UI thread
  mutates; a run of a loop is therefore parametrised by the flag value it
  observes at the top of each iteration (`acq : Nat → Bool`).
-/

namespace AD2

/-- Calls into the vendor dwf library, as recorded on the trace of an
operation.  Constructors mirror the FDwf functions used by the oscilloscope
code path: channel enable, channel range, sample frequency, buffer size,
AnalogInConfigure (arm / start a capture), AnalogInStatus (poll),
AnalogInStatusData (read a channel buffer of the given sample count) and
DeviceClose. -/
inductive HWCall where
  | channelEnableSet (ch : Nat) (en : Bool)
  | channelRangeSet (ch : Nat) (r : ℚ)
  | frequencySet (f : ℚ)
  | bufferSizeSet (n : Nat)
  | analogInConfigure
  | statusPoll
  | statusData (ch : Nat) (count : Nat)
  | deviceClose (h : Int)
  deriving DecidableEq

/-- Typed error kinds named by the specification. -/
inductive AcqError where
  | sessionNotOpen
  | invalidParameter
  | armFailed
  | acquisitionTimeout
  | readFailed
  deriving DecidableEq

/-- The Python object state of `AnalogDiscovery2GUI` that the claims are
about.  `dwf_loaded` is `self.dwf is not None`; `test_mode` is whether the
status label reads Test Mode Active; `hdwf` is the integer value of the
device handle; the ranges and timebase are the combobox settings (volts and
seconds per division). -/
structure GuiState where
  dwf_loaded : Bool
  is_connected : Bool
  is_acquiring : Bool
  test_mode : Bool
  hdwf : Int
  ch1_range : ℚ
  ch2_range : ℚ
  timebase : ℚ
  ch1_data : List ℚ
  ch2_data : List ℚ
  time_data : List ℚ
  start_enabled : Bool
  stop_enabled : Bool
  single_enabled : Bool
  deriving DecidableEq

/-- Simulated waveform data produced by `generate_test_data` (the pseudo
random generator is abstracted into the data it returns). -/
structure SimData where
  ch1 : List ℚ
  ch2 : List ℚ
  time : List ℚ
  deriving DecidableEq

/-- Result of `generate_test_data` followed by a plot update: the three
stored data lists are replaced by the simulated data. -/
def applyTestData (s : GuiState) (g : SimData) : GuiState :=
  { s with ch1_data := g.ch1, ch2_data := g.ch2, time_data := g.time }

/-- Sample rate computed by `configure_oscilloscope` in `ad2_gui.py` from
the timebase combobox: `10.0 / (timebase * 8192)`, capped at 20 MHz. -/
def sampleRateForTimebase (t : ℚ) : ℚ :=
  let r := 10 / (t * 8192)
  if 20000000 < r then 20000000 else r

/-- Embedding of `AnalogDiscovery2GUI.configure_oscilloscope`
(`ad2_gui.py` lines 395-423).  The method returns immediately when the
session is not connected or the library is not loaded; otherwise it enables
both channels, applies the combobox ranges, sets the computed sample rate
and a buffer size of 8192.  The body performs no parameter validation and
its `except` clause only prints, so the error component is always `none`. -/
def configure_oscilloscope (s : GuiState) : List HWCall × Option AcqError :=
  if s.is_connected && s.dwf_loaded then
    ([HWCall.channelEnableSet 0 true, HWCall.channelRangeSet 0 s.ch1_range,
      HWCall.channelEnableSet 1 true, HWCall.channelRangeSet 1 s.ch2_range,
      HWCall.frequencySet (sampleRateForTimebase s.timebase),
      HWCall.bufferSizeSet 8192], none)
  else ([], none)

/-- Embedding of `AnalogDiscovery2GUI.stop_acquisition` (`ad2_gui.py`
lines 439-444): clears `is_acquiring` and flips the Start and Stop button
states.  It makes no dwf library call and touches neither `is_connected`
nor the device handle. -/
def stop_acquisition (s : GuiState) : GuiState :=
  { s with is_acquiring := false, start_enabled := true, stop_enabled := false }

/-- Result of invoking `start_acquisition`: the new object state, the dwf
calls made, whether a background acquisition thread was started, and
whether an error dialog was shown to the user. -/
structure StartResult where
  state : GuiState
  calls : List HWCall
  threadStarted : Bool
  errorShown : Bool
  deriving DecidableEq

/-- Embedding of `AnalogDiscovery2GUI.start_acquisition` in `ad2_gui.py`
(lines 425-437): when not connected it returns silently; otherwise it sets
`is_acquiring`, flips the buttons and spawns the acquisition thread.  No
dwf call is made in either case. -/
def start_acquisition_basic (s : GuiState) : StartResult :=
  if s.is_connected = false then ⟨s, [], false, false⟩
  else ⟨{ s with is_acquiring := true, start_enabled := false, stop_enabled := true },
        [], true, false⟩

/-- Embedding of `AnalogDiscovery2GUI.start_acquisition` in
`complete_ad2_gui.py` (lines 1438-1452): identical to the basic variant
except that the not-connected case shows a Device not connected error
dialog before returning. -/
def start_acquisition_complete (s : GuiState) : StartResult :=
  if s.is_connected = false then ⟨s, [], false, true⟩
  else ⟨{ s with is_acquiring := true, start_enabled := false, stop_enabled := true },
        [], true, false⟩

/-- Embedding of `enable_test_mode` (`ad2_gui.py` lines 272-284): marks the
session connected, sets the status label to Test Mode Active, enables the
Start and Single buttons and installs freshly generated test data. -/
def enable_test_mode (s : GuiState) (g : SimData) : GuiState :=
  { applyTestData s g with
      is_connected := true, test_mode := true,
      start_enabled := true, single_enabled := true }

/-- Poll interval of the wait-for-completion loop of `single_acquisition`
and `perform_acquisition`: `time.sleep(0.001)`, i.e. one millisecond,
expressed in seconds. -/
def singleWaitPollSeconds : ℚ := 1 / 1000

/-- One step of the wait-for-completion loop, starting at poll index `i`
with `fuel` polls of budget: the loop body reads the device status and
exits as soon as it observes the value 2 (DwfStateDone).  The result is
the index of the poll that observed 2, or `none` when the loop is still
running after `fuel` polls — the source loop (`while True`) has no other
exit. -/
def waitFrom (sts : Nat → Int) : Nat → Nat → Option Nat
  | _, 0 => none
  | i, fuel + 1 => if sts i = 2 then some i else waitFrom sts (i + 1) fuel

/-- The wait loop of `single_acquisition` (`ad2_gui.py` lines 462-468) and
`perform_acquisition` (`complete_ad2_gui.py` lines 1514-1519), run from
poll index 0. -/
def waitSteps (sts : Nat → Int) (fuel : Nat) : Option Nat :=
  waitFrom sts 0 fuel

/-- Number of samples kept by `read_and_plot_data` (`ad2_gui.py` lines
519-527): `int(20e6 * timebase * 10)`, capped at the buffer size 8192.
The timebase menu only offers positive values, for which Python `int()`
agrees with the floor. -/
def readSamples (t : ℚ) : Nat :=
  let n := ((20000000 : ℚ) * t * 10).floor.toNat
  if 8192 < n then 8192 else n

/-- Embedding of `read_and_plot_data` (`ad2_gui.py` lines 504-536): reads
8192 samples for each of the two channels from the device (`dev ch i` is
the i-th sample of channel `ch`), then truncates the stored lists to
`readSamples timebase` entries and rebuilds the time axis.  The trace
records one AnalogInStatusData request of exactly 8192 samples per
channel. -/
def read_and_plot_data (s : GuiState) (dev : Nat → Nat → ℚ) : GuiState × List HWCall :=
  let n := readSamples s.timebase
  ({ s with
      ch1_data := ((List.range 8192).map (dev 0)).take n,
      ch2_data := ((List.range 8192).map (dev 1)).take n,
      time_data := (List.range n).map (fun i => (i : ℚ) / 20000000) },
   [HWCall.statusData 0 8192, HWCall.statusData 1 8192])

/-- Embedding of the buffer-read part of `perform_acquisition`
(`complete_ad2_gui.py` lines 1521-1536): for each enabled channel,
`buffer_size` samples are requested and an array of exactly `buffer_size`
entries is produced; a disabled channel contributes an all-zero array of
the same length without a device request.  Returns the two delivered
arrays and the trace of data requests. -/
def perform_read_complete (bufSize : Nat) (dev : Nat → Nat → ℚ)
    (ch1_en ch2_en : Bool) : List ℚ × List ℚ × List HWCall :=
  ((if ch1_en then (List.range bufSize).map (dev 0) else List.replicate bufSize 0),
   (if ch2_en then (List.range bufSize).map (dev 1) else List.replicate bufSize 0),
   ((if ch1_en then [HWCall.statusData 0 bufSize] else []) ++
    (if ch2_en then [HWCall.statusData 1 bufSize] else [])))

/-- Embedding of `single_acquisition` (`ad2_gui.py` lines 446-474).
Branches in source order: return silently when not connected; in test mode
regenerate simulated data and update the plot only; otherwise configure,
arm (AnalogInConfigure) and poll status every millisecond until the value
2 is observed, then read and plot.  When the library is not loaded the
attribute access on `self.dwf` raises before any dwf call and is caught.
The state component is `none` when the wait loop is still running after
`fuel` polls (the source loop has no timeout, so nothing has been
delivered at that point). -/
def single_acquisition_basic (s : GuiState) (g : SimData) (dev : Nat → Nat → ℚ)
    (sts : Nat → Int) (fuel : Nat) : List HWCall × Option GuiState :=
  if s.is_connected = false then ([], some s)
  else if s.test_mode then ([], some (applyTestData s g))
  else if s.dwf_loaded = false then ([], some s)
  else
    let cfg := (configure_oscilloscope s).1
    match waitSteps sts fuel with
    | some i =>
      let rd := read_and_plot_data s dev
      (cfg ++ HWCall.analogInConfigure ::
        (List.replicate (i + 1) HWCall.statusPoll ++ rd.2), some rd.1)
    | none =>
      (cfg ++ HWCall.analogInConfigure :: List.replicate fuel HWCall.statusPoll, none)

/-- Device-side oracle for a run of the continuous acquisition loop of
`ad2_gui.py`: the status value returned by the poll of each iteration, and
which hardware calls raise an exception (the initial arm, the status poll
of an iteration, the buffer read of an iteration, the re-arm of an
iteration). -/
structure DevOracle where
  sts : Nat → Int
  failInitArm : Bool
  failPoll : Nat → Bool
  failRead : Nat → Bool
  failRearm : Nat → Bool

/-- Result of a run of the continuous acquisition loop: the iteration
indices at which a buffer was delivered to the display, the dwf calls
made, whether the loop function ended early because its outer `except`
caught an exception, and whether the loop itself ever set `is_acquiring`
to false (the source never does: only `stop_acquisition` clears it). -/
structure LoopResult where
  deliveries : List Nat
  calls : List HWCall
  aborted : Bool
  clearedFlag : Bool
  deriving DecidableEq

/-- Body of the hardware branch of `acquisition_loop` (`ad2_gui.py` lines
490-499), iteration `i` with `fuel` iterations of budget.  Each iteration
first reads the `is_acquiring` flag (`acq i`), then polls status; a poll
failure escapes to the outer `except`, ending the whole loop.  On status
2 the buffer is read and plotted (`read_and_plot_data` catches its own
failures, so a read failure only loses that delivery) and the capture is
re-armed; a re-arm failure again ends the whole loop.  A run out of fuel
means the loop is still going. -/
def loopGo (o : DevOracle) (acq : Nat → Bool) : Nat → Nat → LoopResult
  | _, 0 => ⟨[], [], false, false⟩
  | i, fuel + 1 =>
    if acq i then
      if o.failPoll i then ⟨[], [HWCall.statusPoll], true, false⟩
      else if o.sts i = 2 then
        if o.failRearm i then
          ⟨if o.failRead i then [] else [i],
           [HWCall.statusPoll, HWCall.statusData 0 8192, HWCall.statusData 1 8192,
            HWCall.analogInConfigure], true, false⟩
        else
          let r := loopGo o acq (i + 1) fuel
          ⟨(if o.failRead i then [] else [i]) ++ r.deliveries,
           HWCall.statusPoll :: HWCall.statusData 0 8192 :: HWCall.statusData 1 8192 ::
             HWCall.analogInConfigure :: r.calls,
           r.aborted, r.clearedFlag⟩
      else
        let r := loopGo o acq (i + 1) fuel
        ⟨r.deliveries, HWCall.statusPoll :: r.calls, r.aborted, r.clearedFlag⟩
    else ⟨[], [], false, false⟩

/-- Test-mode branch of `acquisition_loop` (`ad2_gui.py` lines 478-484):
while the flag is set, regenerate simulated data and schedule a plot
update (one display delivery per iteration), with no dwf call at all. -/
def testLoopGo (acq : Nat → Bool) : Nat → Nat → List Nat
  | _, 0 => []
  | i, fuel + 1 => if acq i then i :: testLoopGo acq (i + 1) fuel else []

/-- Embedding of `acquisition_loop` (`ad2_gui.py` lines 476-502).  In test
mode the loop only regenerates simulated data.  Otherwise it arms once
(AnalogInConfigure; a failure there is caught by the outer `except` and
ends the function), then runs `loopGo`.  The function never clears the
`is_acquiring` flag. -/
def acquisition_loop_basic (s : GuiState) (o : DevOracle) (acq : Nat → Bool)
    (fuel : Nat) : LoopResult :=
  if s.test_mode then ⟨testLoopGo acq 0 fuel, [], false, false⟩
  else if o.failInitArm then ⟨[], [HWCall.analogInConfigure], true, false⟩
  else
    let r := loopGo o acq 0 fuel
    ⟨r.deliveries, HWCall.analogInConfigure :: r.calls, r.aborted, r.clearedFlag⟩

/-- Body of `acquisition_loop` in `complete_ad2_gui.py` (lines 1471-1479),
iteration `i`: while the flag is set, run `perform_acquisition` and sleep.
`perform_acquisition` wraps all hardware work in its own catch-all
`except`, so a hardware failure of cycle `i` (`failCycle i`) only loses
that cycle's delivery and the loop continues; the outer `except`/`break`
is unreachable for hardware errors. -/
def acqLoopCompleteGo (acq : Nat → Bool) (failCycle : Nat → Bool) : Nat → Nat → List Nat
  | _, 0 => []
  | i, fuel + 1 =>
    if acq i then
      (if failCycle i then [] else [i]) ++ acqLoopCompleteGo acq failCycle (i + 1) fuel
    else []

/-- Delivered cycle indices of a run of the complete variant's continuous
acquisition loop. -/
def acquisition_loop_complete (acq : Nat → Bool) (failCycle : Nat → Bool)
    (fuel : Nat) : List Nat :=
  acqLoopCompleteGo acq failCycle 0 fuel

/-- Embedding of `disconnect_device` (`ad2_gui.py` lines 365-393).  Only
when the session is connected and the library is loaded does it call
`stop_acquisition` and close the handle (the close is wrapped in a
`try`/`except pass`, hence safe on a never-opened handle).  It then
unconditionally clears `is_connected`, resets the status label (so the
label no longer reads Test Mode Active), disables the acquisition buttons
and empties the three stored data lists. -/
def disconnect_device (s : GuiState) : GuiState × List HWCall :=
  if s.is_connected && s.dwf_loaded then
    ({ stop_acquisition s with
        is_connected := false, test_mode := false,
        ch1_data := [], ch2_data := [], time_data := [],
        start_enabled := false, stop_enabled := false, single_enabled := false },
     [HWCall.deviceClose s.hdwf])
  else
    ({ s with
        is_connected := false, test_mode := false,
        ch1_data := [], ch2_data := [], time_data := [],
        start_enabled := false, stop_enabled := false, single_enabled := false },
     [])

/-- Connected idle state with default combobox settings (range 5 V,
timebase 1e-4 s/div), used as a concrete evaluation point. -/
def baseState : GuiState :=
  { dwf_loaded := true, is_connected := true, is_acquiring := false,
    test_mode := false, hdwf := 1, ch1_range := 5, ch2_range := 5,
    timebase := 1 / 10000, ch1_data := [], ch2_data := [], time_data := [],
    start_enabled := true, stop_enabled := false, single_enabled := true }

/-- Never-connected state (library loaded, session closed). -/
def disconnectedState : GuiState :=
  { baseState with is_connected := false, start_enabled := false, single_enabled := false }

/-- Connected state in which the continuous acquisition loop is already
running (`is_acquiring` set by a prior `start_acquisition`). -/
def busyState : GuiState :=
  { baseState with is_acquiring := true, start_enabled := false, stop_enabled := true }

/-- Connected state whose channel 1 range combobox value 3 V is outside
the menu of allowed ranges. -/
def badRangeState : GuiState :=
  { baseState with ch1_range := 3 }

/-- Test-mode state with the library never loaded and a test-mode
acquisition loop running: reachable by pressing Test Mode and then Start
when the WaveForms library is absent. -/
def testAcqNoLibState : GuiState :=
  { baseState with
      dwf_loaded := false, test_mode := true, is_acquiring := true,
      start_enabled := false, stop_enabled := true }

/-- Test-mode state with the library loaded. -/
def testModeState : GuiState :=
  { baseState with test_mode := true }

/-- Oracle of a device that reports done on every poll and never fails. -/
def readyOracle : DevOracle :=
  ⟨fun _ => 2, false, fun _ => false, fun _ => false, fun _ => false⟩

/-- Oracle of a device whose status poll always raises. -/
def stuckOracle : DevOracle :=
  ⟨fun _ => 0, false, fun _ => true, fun _ => false, fun _ => false⟩

/-- Empty simulated data. -/
def noSim : SimData := ⟨[], [], []⟩

lemma waitFrom_none_of (sts : Nat → Int) (h : ∀ j, sts j ≠ 2) :
    ∀ fuel i, waitFrom sts i fuel = none := by
  intro fuel
  induction fuel with
  | zero => intro i; rfl
  | succ n ih =>
    intro i
    rw [waitFrom, if_neg (h i)]
    exact ih (i + 1)

lemma waitFrom_none_ranged (sts : Nat → Int) :
    ∀ fuel i, (∀ j, i ≤ j → j < i + fuel → sts j ≠ 2) → waitFrom sts i fuel = none := by
  intro fuel
  induction fuel with
  | zero => intro i _; rfl
  | succ n ih =>
    intro i h
    rw [waitFrom, if_neg (h i le_rfl (by omega))]
    exact ih (i + 1) (fun j hj1 hj2 => h j (by omega) (by omega))

lemma waitFrom_some_spec (sts : Nat → Int) :
    ∀ fuel i k, waitFrom sts i fuel = some k →
      sts k = 2 ∧ i ≤ k ∧ ∀ j, i ≤ j → j < k → sts j ≠ 2 := by
  intro fuel
  induction fuel with
  | zero => intro i k h; simp [waitFrom] at h
  | succ n ih =>
    intro i k h
    rw [waitFrom] at h
    by_cases hs : sts i = 2
    · rw [if_pos hs] at h
      obtain rfl : i = k := Option.some.inj h
      exact ⟨hs, le_rfl, fun j hj1 hj2 => absurd hj2 (by omega)⟩
    · rw [if_neg hs] at h
      obtain ⟨h2, hik, hall⟩ := ih (i + 1) k h
      refine ⟨h2, by omega, fun j hj1 hj2 => ?_⟩
      rcases Nat.eq_or_lt_of_le hj1 with hji | hlt
      · exact hji ▸ hs
      · exact hall j hlt hj2

lemma sampleRateForTimebase_eq_min (t : ℚ) :
    sampleRateForTimebase t = min (10 / (t * 8192)) 20000000 := by
  simp only [sampleRateForTimebase]
  rcases le_or_lt (10 / (t * 8192)) 20000000 with h | h
  · rw [if_neg (not_lt.mpr h), min_eq_left h]
  · rw [if_pos h, min_eq_right h.le]

lemma sampleRateForTimebase_pos (t : ℚ) (ht : 0 < t) : 0 < sampleRateForTimebase t := by
  have hr : (0 : ℚ) < 10 / (t * 8192) := by positivity
  simp only [sampleRateForTimebase]
  split_ifs
  · norm_num
  · exact hr

lemma sampleRateForTimebase_le (t : ℚ) : sampleRateForTimebase t ≤ 20000000 := by
  simp only [sampleRateForTimebase]
  split_ifs with h
  · exact le_refl _
  · exact le_of_not_lt h

lemma loopGo_deliveries_acq (o : DevOracle) (acq : Nat → Bool) :
    ∀ fuel i j, j ∈ (loopGo o acq i fuel).deliveries → acq j = true := by
  intro fuel
  induction fuel with
  | zero => intro i j h; simp [loopGo] at h
  | succ n ih =>
    intro i j h
    by_cases h1 : acq i = true
    · by_cases h2 : o.failPoll i = true
      · simp [loopGo, h1, h2] at h
      · by_cases h3 : o.sts i = 2
        · by_cases h4 : o.failRearm i = true
          · by_cases h5 : o.failRead i = true
            · simp [loopGo, h1, h2, h3, h4, h5] at h
            · simp [loopGo, h1, h2, h3, h4, h5] at h
              subst h; exact h1
          · by_cases h5 : o.failRead i = true
            · simp [loopGo, h1, h2, h3, h4, h5] at h
              exact ih (i + 1) j h
            · simp [loopGo, h1, h2, h3, h4, h5] at h
              rcases h with rfl | h
              · exact h1
              · exact ih (i + 1) j h
        · simp [loopGo, h1, h2, h3] at h
          exact ih (i + 1) j h
    · simp [loopGo, h1] at h

lemma loopGo_clearedFlag (o : DevOracle) (acq : Nat → Bool) :
    ∀ fuel i, (loopGo o acq i fuel).clearedFlag = false := by
  intro fuel
  induction fuel with
  | zero => intro i; rfl
  | succ n ih =>
    intro i
    rw [loopGo]
    split_ifs <;> simp [ih]

lemma testLoopGo_mem (acq : Nat → Bool) :
    ∀ fuel i j, j ∈ testLoopGo acq i fuel → acq j = true := by
  intro fuel
  induction fuel with
  | zero => intro i j h; simp [testLoopGo] at h
  | succ n ih =>
    intro i j h
    rw [testLoopGo] at h
    by_cases h1 : acq i = true
    · rw [if_pos h1] at h
      rcases List.mem_cons.mp h with rfl | h
      · exact h1
      · exact ih (i + 1) j h
    · rw [if_neg h1] at h
      simp at h

lemma acqLoopCompleteGo_eq (failCycle : Nat → Bool) (stopAt : Nat) :
    ∀ fuel i, stopAt ≤ i + fuel →
      acqLoopCompleteGo (fun k => decide (k < stopAt)) failCycle i fuel
        = (List.range' i (stopAt - i)).filter (fun k => !failCycle k) := by
  intro fuel
  induction fuel with
  | zero =>
    intro i h
    have h0 : stopAt - i = 0 := by omega
    simp [acqLoopCompleteGo, h0]
  | succ n ih =>
    intro i h
    rw [acqLoopCompleteGo]
    by_cases hi : i < stopAt
    · rw [if_pos (by simpa using hi)]
      have hs : stopAt - i = (stopAt - (i + 1)) + 1 := by omega
      rw [hs, List.range'_succ, List.filter_cons, ih (i + 1) (by omega)]
      by_cases hf : failCycle i = true
      · simp [hf]
      · simp [hf]
    · have h0 : stopAt - i = 0 := by omega
      simp [hi, h0]

/-- C1 (counterexample): the claim asserts that the wait-for-completion
loop terminates within a timeout on the order of seconds for every status
sequence.  Against a device that never reports done, the wait loop of
`single_acquisition` is still running after 3600000 polls — an hour of
1 ms polls: the source loop is `while True` with no timeout at all. -/
theorem wait_loop_unbounded_cex :
    waitSteps (fun _ => (0 : Int)) 3600000 = none :=
  waitFrom_none_of (fun _ => (0 : Int)) (fun _ => by norm_num) 3600000 0

/-- C1 (corrected): the wait-for-completion phase polls the device status
at a fixed 1 ms interval and exits exactly when the terminal done status
(value 2) is first observed; there is no timeout: whenever done does not
appear among the first `fuel` polls the loop is still running after those
`fuel` polls, however large, and the single-shot routine has read and
delivered no buffer at that point. -/
theorem wait_loop_poll_and_no_timeout (sts : Nat → Int) (fuel : Nat) :
    singleWaitPollSeconds = 1 / 1000
    ∧ (∀ i, waitSteps sts fuel = some i → sts i = 2 ∧ ∀ j, j < i → sts j ≠ 2)
    ∧ ((∀ j, j < fuel → sts j ≠ 2) → waitSteps sts fuel = none)
    ∧ (∀ s g dev, s.is_connected = true → s.test_mode = false → s.dwf_loaded = true →
        waitSteps sts fuel = none →
        (single_acquisition_basic s g dev sts fuel).2 = none) := by
  refine ⟨rfl, ?_, ?_, ?_⟩
  · intro i h
    obtain ⟨h2, -, hall⟩ := waitFrom_some_spec sts fuel 0 i h
    exact ⟨h2, fun j hj => hall j (Nat.zero_le j) hj⟩
  · intro h
    exact waitFrom_none_ranged sts fuel 0 (fun j _ hj => h j (by omega))
  · intro s g dev hc ht hd hw
    simp [single_acquisition_basic, hc, ht, hd, hw]

/-- Witness for C1: the wait-loop theorem applied to the never-done device
over 60000 polls and to the immediately-done device. -/
theorem wait_loop_poll_and_no_timeout_witness :
    waitSteps (fun _ => (0 : Int)) 60000 = none ∧ (fun _ => (2 : Int)) 0 = 2 :=
  ⟨(wait_loop_poll_and_no_timeout (fun _ => (0 : Int)) 60000).2.2.1
      (fun j hj => by norm_num),
   ((wait_loop_poll_and_no_timeout (fun _ => (2 : Int)) 1).2.1 0 (by decide)).1⟩

/-- C2 (counterexample): invoking `start_acquisition` of `ad2_gui.py` on a
session that is not open returns silently: no hardware call is made but no
error of any kind is surfaced to the caller either, while the claim says
SessionNotOpen is always surfaced. -/
theorem start_silent_when_disconnected_cex :
    disconnectedState.is_connected = false
    ∧ (start_acquisition_basic disconnectedState).errorShown = false
    ∧ (start_acquisition_basic disconnectedState).calls = [] := by
  decide

/-- C2 (corrected): starting the acquisition loop on a session that is not
open performs no hardware call, starts no acquisition thread and leaves
the object state (in particular `is_acquiring`) unchanged, in both
variants; the complete variant surfaces a Device-not-connected error
dialog, while the basic variant returns silently without surfacing any
error. -/
theorem start_not_connected_no_hw (s : GuiState) (h : s.is_connected = false) :
    start_acquisition_basic s = ⟨s, [], false, false⟩
    ∧ start_acquisition_complete s = ⟨s, [], false, true⟩ := by
  constructor <;> simp [start_acquisition_basic, start_acquisition_complete, h]

/-- Witness for C2: the not-connected start theorem at the concrete
disconnected state. -/
theorem start_not_connected_no_hw_witness :
    start_acquisition_basic disconnectedState = ⟨disconnectedState, [], false, false⟩ :=
  (start_not_connected_no_hw disconnectedState (by decide)).1

/-- C3 (confirmed): each capture requests exactly the configured buffer
size from the device (8192 in the basic variant, `bufSize` in the complete
variant) and, per channel, the buffer delivered to the display layer holds
at most that many samples — in the basic variant exactly
`readSamples timebase`, the sample count implied by the configured time
window capped at 8192, and in the complete variant exactly `bufSize`. -/
theorem capture_buffer_bounds (s : GuiState) (dev : Nat → Nat → ℚ) :
    (read_and_plot_data s dev).2 = [HWCall.statusData 0 8192, HWCall.statusData 1 8192]
    ∧ (read_and_plot_data s dev).1.ch1_data.length = readSamples s.timebase
    ∧ (read_and_plot_data s dev).1.ch2_data.length = readSamples s.timebase
    ∧ readSamples s.timebase ≤ 8192
    ∧ (∀ bufSize dev2 e1 e2,
        (perform_read_complete bufSize dev2 e1 e2).1.length = bufSize
        ∧ (perform_read_complete bufSize dev2 e1 e2).2.1.length = bufSize
        ∧ ∀ c ∈ (perform_read_complete bufSize dev2 e1 e2).2.2,
            ∃ ch, c = HWCall.statusData ch bufSize) := by
  have hle : readSamples s.timebase ≤ 8192 := by
    simp only [readSamples]
    split_ifs with h
    · exact le_refl _
    · omega
  refine ⟨rfl, ?_, ?_, hle, ?_⟩
  · simp [read_and_plot_data, Nat.min_eq_left hle]
  · simp [read_and_plot_data, Nat.min_eq_left hle]
  · intro bufSize dev2 e1 e2
    refine ⟨?_, ?_, ?_⟩
    · cases e1 <;> simp [perform_read_complete]
    · cases e2 <;> simp [perform_read_complete]
    · intro c hc
      simp only [perform_read_complete] at hc
      rcases List.mem_append.mp hc with hc | hc
      · cases e1
        · simp at hc
        · simp at hc
          exact ⟨0, hc⟩
      · cases e2
        · simp at hc
        · simp at hc
          exact ⟨1, hc⟩

/-- Witness for C3: the buffer-bound theorem at the default state, plus
its request-count clause discharged at a concrete trace element. -/
theorem capture_buffer_bounds_witness :
    readSamples baseState.timebase ≤ 8192
    ∧ (perform_read_complete 4096 (fun _ _ => 0) true false).1.length = 4096
    ∧ ∃ ch, HWCall.statusData 0 4096 = HWCall.statusData ch 4096 :=
  ⟨(capture_buffer_bounds baseState (fun _ _ => 0)).2.2.2.1,
   ((capture_buffer_bounds baseState (fun _ _ => 0)).2.2.2.2 4096 (fun _ _ => 0) true false).1,
   ((capture_buffer_bounds baseState (fun _ _ => 0)).2.2.2.2 4096 (fun _ _ => 0) true false).2.2
     (HWCall.statusData 0 4096) (by decide)⟩

/-- C4 (confirmed): every buffer delivered by a run of the continuous
acquisition loop belongs to an iteration at which the `is_acquiring` flag
still read true — once `stop_acquisition` clears the flag (here from
iteration `stopAt` on) no further delivery occurs, so delivery halts
within the iteration in progress, i.e. within one poll interval; moreover
`stop_acquisition` leaves the session open — `is_connected` and the
device handle are unchanged, and it makes no dwf call, in particular no
DeviceClose — clears `is_acquiring`, and is idempotent. -/
theorem stop_halts_delivery (s : GuiState) (o : DevOracle) (stopAt fuel j : Nat)
    (h : j ∈ (acquisition_loop_basic s o (fun i => decide (i < stopAt)) fuel).deliveries) :
    j < stopAt
    ∧ (stop_acquisition s).is_connected = s.is_connected
    ∧ (stop_acquisition s).hdwf = s.hdwf
    ∧ (stop_acquisition s).is_acquiring = false
    ∧ stop_acquisition (stop_acquisition s) = stop_acquisition s := by
  refine ⟨?_, rfl, rfl, rfl, rfl⟩
  have hd : decide (j < stopAt) = true := by
    simp only [acquisition_loop_basic] at h
    split_ifs at h
    · exact testLoopGo_mem _ fuel 0 j h
    · simp at h
    · exact loopGo_deliveries_acq o _ fuel 0 j h
  exact of_decide_eq_true hd

/-- Witness for C4: a concrete run in which iteration 0 delivers while the
flag is up for two iterations. -/
theorem stop_halts_delivery_witness :
    (0 ∈ (acquisition_loop_basic baseState readyOracle (fun i => decide (i < 2)) 3).deliveries)
    ∧ 0 < 2 ∧ (stop_acquisition baseState).is_acquiring = false :=
  ⟨by decide,
   (stop_halts_delivery baseState readyOracle 2 3 0 (by decide)).1,
   (stop_halts_delivery baseState readyOracle 2 3 0 (by decide)).2.2.2.1⟩

/-- C5 (counterexample): in `ad2_gui.py`, with the loop still flagged as
acquiring, a failure of the status call on the very first iteration is
caught by the `except` that wraps the whole `while` loop: the loop
function ends (aborted) having delivered nothing, and `is_acquiring` is
never cleared — the state machine is left stuck in a non-Idle state
instead of aborting only that cycle and returning to Idle. -/
theorem basic_loop_abort_cex :
    (acquisition_loop_basic baseState stuckOracle (fun _ => true) 5).aborted = true
    ∧ (acquisition_loop_basic baseState stuckOracle (fun _ => true) 5).deliveries = []
    ∧ (acquisition_loop_basic baseState stuckOracle (fun _ => true) 5).clearedFlag = false := by
  decide

/-- C5 (corrected): no hardware failure escapes a loop (every exception is
caught, so no failure is fatal to the process).  In the complete variant a
hardware failure aborts only its own cycle: with the flag up for `stopAt`
cycles, exactly the non-failing cycles among the first `stopAt` deliver,
so the loop keeps running after a failed cycle.  In the basic variant a
status-poll or re-arm failure ends the whole loop, and no loop ever clears
`is_acquiring`, so such a failure leaves the machine stuck in a non-Idle
state (see the counterexample). -/
theorem hardware_failure_cycle_scope (failCycle : Nat → Bool) (stopAt fuel : Nat)
    (h : stopAt ≤ fuel) (s : GuiState) (o : DevOracle) (acq : Nat → Bool) (fuel2 : Nat) :
    acquisition_loop_complete (fun i => decide (i < stopAt)) failCycle fuel
      = (List.range stopAt).filter (fun i => !failCycle i)
    ∧ (acquisition_loop_basic s o acq fuel2).clearedFlag = false := by
  constructor
  · rw [acquisition_loop_complete, acqLoopCompleteGo_eq failCycle stopAt fuel 0 (by omega),
      List.range_eq_range']
    simp
  · simp only [acquisition_loop_basic]
    split_ifs <;> simp [loopGo_clearedFlag]

/-- Witness for C5: cycle 0 fails, cycle 1 still delivers. -/
theorem hardware_failure_cycle_scope_witness :
    acquisition_loop_complete (fun i => decide (i < 2)) (fun i => decide (i = 0)) 2 = [1]
    ∧ (acquisition_loop_basic baseState readyOracle (fun _ => true) 1).clearedFlag = false := by
  have h := hardware_failure_cycle_scope (fun i => decide (i = 0)) 2 2 (by decide)
      baseState readyOracle (fun _ => true) 1
  exact ⟨h.1.trans (by decide), h.2⟩

/-- C6 (counterexample): with the continuous loop already acquiring
(`is_acquiring` true) on a connected session, invoking
`single_acquisition` still issues an AnalogInConfigure arm command on the
same session: a second capture is armed while a prior one is
outstanding. -/
theorem single_while_acquiring_arms_cex :
    busyState.is_acquiring = true
    ∧ HWCall.analogInConfigure
        ∈ (single_acquisition_basic busyState noSim (fun _ _ => 0) (fun _ => 2) 1).1 := by
  decide

/-- C6 (corrected): neither `start_acquisition` nor `single_acquisition`
consults `is_acquiring`: on any connected non-test-mode session with the
library loaded, `single_acquisition` arms a capture (and
`start_acquisition` spawns a new acquisition thread) regardless of whether
a prior capture is outstanding.  The GUI merely disables the Start button
while acquiring; the Single button stays enabled, so at-most-one
capture in flight is not enforced on the session. -/
theorem arm_ignores_acquiring (s : GuiState) (g : SimData) (dev : Nat → Nat → ℚ)
    (sts : Nat → Int) (fuel : Nat) (hc : s.is_connected = true)
    (ht : s.test_mode = false) (hd : s.dwf_loaded = true) :
    HWCall.analogInConfigure ∈ (single_acquisition_basic s g dev sts fuel).1
    ∧ (start_acquisition_basic s).threadStarted = true := by
  constructor
  · rcases hw : waitSteps sts fuel with _ | i <;>
      simp [single_acquisition_basic, hc, ht, hd, hw]
  · simp [start_acquisition_basic, hc]

/-- Witness for C6: the theorem at the busy (already-acquiring) state. -/
theorem arm_ignores_acquiring_witness :
    busyState.is_acquiring = true
    ∧ (start_acquisition_basic busyState).threadStarted = true :=
  ⟨by decide,
   (arm_ignores_acquiring busyState noSim (fun _ _ => 0) (fun _ => 2) 1
      (by decide) (by decide) (by decide)).2⟩

/-- C7 (counterexample): with the channel-1 range combobox at 3 V — a
value outside the allowed menu of 0.5, 1, 2, 5, 10, 25 —
`configure_oscilloscope` does not fail with InvalidParameter (or at all):
it reports no error and applies the out-of-menu range to the device. -/
theorem configure_no_invalid_parameter_cex :
    (¬ (badRangeState.ch1_range = 1 / 2 ∨ badRangeState.ch1_range = 1
        ∨ badRangeState.ch1_range = 2 ∨ badRangeState.ch1_range = 5
        ∨ badRangeState.ch1_range = 10 ∨ badRangeState.ch1_range = 25))
    ∧ (configure_oscilloscope badRangeState).2 = none
    ∧ HWCall.channelRangeSet 0 3 ∈ (configure_oscilloscope badRangeState).1 := by
  refine ⟨?_, rfl, ?_⟩
  · norm_num [badRangeState, baseState]
  · simp [configure_oscilloscope, badRangeState, baseState]

/-- C7 (corrected): `configure_oscilloscope` performs no parameter
validation and never fails: on every connected session with the library
loaded it reports no error and applies whatever range values the
comboboxes hold, exactly as given, and the sample rate it configures is
positive whenever the timebase is.  Only the readonly GUI menus keep the
ranges inside the allowed set. -/
theorem configure_applies_without_validation (s : GuiState)
    (hc : s.is_connected = true) (hd : s.dwf_loaded = true) :
    (configure_oscilloscope s).2 = none
    ∧ HWCall.channelRangeSet 0 s.ch1_range ∈ (configure_oscilloscope s).1
    ∧ HWCall.channelRangeSet 1 s.ch2_range ∈ (configure_oscilloscope s).1
    ∧ HWCall.frequencySet (sampleRateForTimebase s.timebase) ∈ (configure_oscilloscope s).1
    ∧ (0 < s.timebase → 0 < sampleRateForTimebase s.timebase) := by
  refine ⟨?_, ?_, ?_, ?_, sampleRateForTimebase_pos s.timebase⟩
  all_goals simp [configure_oscilloscope, hc, hd]

/-- Witness for C7: the theorem at the default connected state. -/
theorem configure_applies_without_validation_witness :
    (configure_oscilloscope baseState).2 = none
    ∧ 0 < sampleRateForTimebase baseState.timebase :=
  ⟨(configure_applies_without_validation baseState (by decide) (by decide)).1,
   (configure_applies_without_validation baseState (by decide) (by decide)).2.2.2.2
     (by norm_num [baseState])⟩

/-- C8 (counterexample): calling `disconnect_device` in test mode with the
library never loaded and a test-mode acquisition loop running (reached by
pressing Test Mode and then Start when WaveForms is not installed) clears
`is_connected` but skips `stop_acquisition`, whose guard requires
`self.dwf`: `is_acquiring` remains true after disconnect, contradicting
the claimed fixed post-state. -/
theorem disconnect_leaves_acquiring_cex :
    testAcqNoLibState.is_acquiring = true
    ∧ (disconnect_device testAcqNoLibState).1.is_connected = false
    ∧ (disconnect_device testAcqNoLibState).1.is_acquiring = true := by
  decide

/-- C8 (corrected): after `disconnect_device` returns, `is_connected` is
false and the stored data lists are empty, from any starting state, and a
second call yields the same post-state (idempotence); acquisition is
stopped (`is_acquiring` false) whenever the session was connected with the
library loaded, but when the library is not loaded — test mode without
WaveForms installed — `is_acquiring` is left unchanged. -/
theorem disconnect_poststate (s : GuiState) :
    (disconnect_device s).1.is_connected = false
    ∧ (disconnect_device s).1.ch1_data = []
    ∧ (disconnect_device s).1.ch2_data = []
    ∧ (disconnect_device s).1.time_data = []
    ∧ (s.is_connected = true → s.dwf_loaded = true →
        (disconnect_device s).1.is_acquiring = false)
    ∧ (s.dwf_loaded = false → (disconnect_device s).1.is_acquiring = s.is_acquiring)
    ∧ (disconnect_device (disconnect_device s).1).1 = (disconnect_device s).1 := by
  obtain ⟨dl, con, acq, tm, hh, r1, r2, tb, d1, d2, td, b1, b2, b3⟩ := s
  cases dl <;> cases con <;> simp [disconnect_device, stop_acquisition]

/-- Witness for C8: the theorem at the connected state with the library
loaded, where acquisition is indeed stopped. -/
theorem disconnect_poststate_witness :
    (disconnect_device baseState).1.is_connected = false
    ∧ (disconnect_device baseState).1.is_acquiring = false :=
  ⟨(disconnect_poststate baseState).1,
   (disconnect_poststate baseState).2.2.2.2.1 (by decide) (by decide)⟩

/-- C9 (confirmed): for every positive timebase, the sample rate passed to
the device by `configure_oscilloscope` equals
min(10 / (timebase * 8192), 2 * 10^7); it is strictly positive and never
exceeds 20 MHz. -/
theorem sample_rate_formula (t : ℚ) (ht : 0 < t) :
    sampleRateForTimebase t = min (10 / (t * 8192)) 20000000
    ∧ 0 < sampleRateForTimebase t
    ∧ sampleRateForTimebase t ≤ 20000000 :=
  ⟨sampleRateForTimebase_eq_min t, sampleRateForTimebase_pos t ht,
   sampleRateForTimebase_le t⟩

/-- Witness for C9: the formula theorem at the default timebase of 1e-4
seconds per division. -/
theorem sample_rate_formula_witness :
    0 < sampleRateForTimebase (1 / 10000)
    ∧ sampleRateForTimebase (1 / 10000) ≤ 20000000 :=
  ⟨(sample_rate_formula (1 / 10000) (by norm_num)).2.1,
   (sample_rate_formula (1 / 10000) (by norm_num)).2.2⟩

/-- C10 (confirmed): when the status label reads Test Mode Active,
`single_acquisition` and `acquisition_loop` make no call into the dwf
library at all, and any state `single_acquisition` produces keeps the
device handle, `is_connected` and `is_acquiring` untouched — the
test-mode branches only regenerate simulated data and update the display;
`enable_test_mode` is what sets that label. -/
theorem test_mode_no_hardware (s : GuiState) (g : SimData) (dev : Nat → Nat → ℚ)
    (sts : Nat → Int) (fuel : Nat) (o : DevOracle) (acq : Nat → Bool) (fuel2 : Nat)
    (h : s.test_mode = true) :
    (single_acquisition_basic s g dev sts fuel).1 = []
    ∧ (∀ s2, (single_acquisition_basic s g dev sts fuel).2 = some s2 →
        s2.hdwf = s.hdwf ∧ s2.is_connected = s.is_connected
        ∧ s2.is_acquiring = s.is_acquiring)
    ∧ (acquisition_loop_basic s o acq fuel2).calls = []
    ∧ ∀ s0 g0, (enable_test_mode s0 g0).test_mode = true := by
  refine ⟨?_, ?_, ?_, fun s0 g0 => rfl⟩
  · by_cases hc : s.is_connected = false
    · simp [single_acquisition_basic, hc]
    · simp [single_acquisition_basic, hc, h]
  · intro s2 hs2
    by_cases hc : s.is_connected = false
    · simp [single_acquisition_basic, hc] at hs2
      subst hs2
      exact ⟨rfl, rfl, rfl⟩
    · simp [single_acquisition_basic, hc, h] at hs2
      subst hs2
      simp [applyTestData]
  · simp [acquisition_loop_basic, h]

/-- Witness for C10: the theorem at the concrete test-mode state. -/
theorem test_mode_no_hardware_witness :
    (single_acquisition_basic testModeState noSim (fun _ _ => 0) (fun _ => 0) 5).1 = []
    ∧ (acquisition_loop_basic testModeState stuckOracle (fun _ => true) 5).calls = [] :=
  ⟨(test_mode_no_hardware testModeState noSim (fun _ _ => 0) (fun _ => 0) 5
      stuckOracle (fun _ => true) 5 (by decide)).1,
   (test_mode_no_hardware testModeState noSim (fun _ _ => 0) (fun _ => 0) 5
      stuckOracle (fun _ => true) 5 (by decide)).2.2.1⟩

end AD2
